import Mathlib

/-!
Verification of the FlightScope flight-tracker (src/main.py) against its
natural-language specification.

The embedding models the data-handling core of the program:

* `Cell` models one loosely-typed JSON/pandas value of a raw state vector
  (Python `None` and pandas `NaN` are both `Cell.null`; numeric epoch values
  are modelled as integers).
* `formatTimestamp` models `FlightScopeApp.formatTimestamp`, with
  `datetime.fromtimestamp(...).strftime(\x27%Y-%m-%d %H:%M:%S\x27)` modelled by an
  explicit proleptic-Gregorian civil-calendar computation; the process-local
  timezone is modelled as UTC, and the `fromtimestamp` validity range is the
  datetime range year 1 .. year 9999.  Like glibc, `%Y` is not zero-padded.
* `normalizePayload` models the pandas pipeline of
  `FlightScopeApp.fetchFlightData`: `pd.DataFrame(states)` (rows padded with
  `NaN` to the longest row), `.iloc[:, 0:17]`, the 17-name column assignment
  (which raises `ValueError` when the frame has fewer than 17 columns),
  `.fillna(\x27No Data\x27)`, `pd.to_numeric(..., errors=\x27coerce\x27)` plus
  `formatTimestamp` on the two timestamp columns, and the `OnGround`
  truthiness display mapping.
* `runCycle` / `applyCycle` model one execution of `fetchFlightData`
  including its `try/except` structure, the status-code branch, the
  `states`-truthiness branch, the CSV write, the table-model binding and the
  two status labels.
* `rowCount`, `columnCount`, `dataAt`, `headerData` model `FlightDataModel`.
-/

/-- One loosely-typed value of a raw state vector.  `null` stands for both
Python `None` and pandas `NaN` (they agree under `pd.isna` and `fillna`). -/
inductive Cell where
  | null : Cell
  | str : String → Cell
  | num : Int → Cell
  | bool : Bool → Cell
deriving DecidableEq, Repr

/-- The explicit missing-value sentinel used throughout the program. -/
def sentinel : Cell := Cell.str "No Data"

/-! ### Decimal rendering (models CPython/glibc digit output) -/

/-- Fuelled most-significant-first decimal digit accumulator. -/
def decDigits : Nat → Nat → List Char → List Char
  | 0, _, acc => acc
  | fuel + 1, n, acc =>
    if n < 10 then Char.ofNat (48 + n) :: acc
    else decDigits fuel (n / 10) (Char.ofNat (48 + n % 10) :: acc)

/-- Decimal rendering of a natural number, no padding (glibc `%Y`). -/
def natStr (n : Nat) : String := String.mk (decDigits (n + 1) n [])

/-- Two-digit zero-padded rendering (glibc `%m %d %H %M %S`). -/
def pad2 (n : Nat) : String := if n < 10 then "0" ++ natStr n else natStr n

/-! ### Civil calendar computation for `datetime.fromtimestamp` -/

/-- Smallest epoch representable by `datetime` (0001-01-01 00:00:00 UTC). -/
def minEpoch : Int := -62135596800

/-- Largest epoch representable by `datetime` (9999-12-31 23:59:59 UTC). -/
def maxEpoch : Int := 253402300799

/-- Year-of-era from day-of-era (days since 0000-03-01, era = 400 years). -/
def yoeOf (doe : Nat) : Nat := (doe - doe / 1460 + doe / 36524 - doe / 146096) / 365

/-- Day-of-year (March-based) from day-of-era. -/
def doyOf (doe : Nat) : Nat := doe - (365 * yoeOf doe + yoeOf doe / 4 - yoeOf doe / 100)

/-- March-based month index from day-of-era. -/
def mpOf (doe : Nat) : Nat := (5 * doyOf doe + 2) / 153

/-- Day of month from day-of-era. -/
def domOf (doe : Nat) : Nat := doyOf doe - (153 * mpOf doe + 2) / 5 + 1

/-- Calendar month (1..12) from day-of-era. -/
def monthOf (doe : Nat) : Nat := if mpOf doe < 10 then mpOf doe + 3 else mpOf doe - 9

/-- The six civil components of a timestamp. -/
structure DateParts where
  y : Nat
  m : Nat
  d : Nat
  hh : Nat
  mi : Nat
  ss : Nat
deriving DecidableEq, Repr

/-- Civil components of an epoch value (valid for `minEpoch ≤ n ≤ maxEpoch`);
local timezone modelled as UTC. -/
def epochParts (n : Int) : DateParts :=
  let t : Nat := (n - minEpoch).toNat
  let days := t / 86400
  let secs := t % 86400
  let nn := days + 306
  let era := nn / 146097
  let doe := nn % 146097
  { y := era * 400 + yoeOf doe + (if monthOf doe ≤ 2 then 1 else 0)
    m := monthOf doe
    d := domOf doe
    hh := secs / 3600
    mi := secs % 3600 / 60
    ss := secs % 60 }

/-- The calendar year `datetime.fromtimestamp` would report for `n`. -/
def epochYear (n : Int) : Nat := (epochParts n).y

/-- The string `datetime.fromtimestamp(n).strftime(\x27%Y-%m-%d %H:%M:%S\x27)`. -/
def fmtString (n : Int) : String :=
  let p := epochParts n
  natStr p.y ++ "-" ++ pad2 p.m ++ "-" ++ pad2 p.d ++ " " ++
    pad2 p.hh ++ ":" ++ pad2 p.mi ++ ":" ++ pad2 p.ss

/-- Models `datetime.fromtimestamp(n).strftime(...)`: `none` when
`fromtimestamp` raises (epoch outside the `datetime` range). -/
def fromtimestampStr (n : Int) : Option String :=
  if minEpoch ≤ n ∧ n ≤ maxEpoch then some (fmtString n) else none

/-! ### Numeric parsing (models `float(...)` / `pd.to_numeric`) -/

/-- Accumulate decimal digits; fails on any non-digit character. -/
def parseDigitsAux : List Char → Nat → Option Nat
  | [], acc => some acc
  | c :: cs, acc =>
    if c.isDigit then parseDigitsAux cs (acc * 10 + (c.toNat - 48)) else none

/-- Models successful `float(s)` conversion of an optionally-signed decimal
integer literal; any other string raises in Python and parses to `none` here
(epoch values are modelled as integers, so fractional literals are omitted). -/
def parseNum : String → Option Int
  | s =>
    match s.data with
    | [] => none
    | '-' :: cs =>
      match cs with
      | [] => none
      | _ => (parseDigitsAux cs 0).map (fun v => -(v : Int))
    | cs => (parseDigitsAux cs 0).map (fun v => (v : Int))

/-! ### `FlightScopeApp.formatTimestamp` -/

/-- Direct model of `FlightScopeApp.formatTimestamp`:
`pd.isna` guard, sentinel guard, then
`datetime.fromtimestamp(float(timestamp)).strftime(\x27%Y-%m-%d %H:%M:%S\x27)`
inside a bare `except` that degrades every failure to the sentinel. -/
def formatTimestamp (c : Cell) : Cell :=
  match c with
  | Cell.null => sentinel
  | Cell.str s =>
    if s = "No Data" then sentinel
    else
      match parseNum s with
      | some q =>
        match fromtimestampStr q with
        | some out => Cell.str out
        | none => sentinel
      | none => sentinel
  | Cell.num q =>
    match fromtimestampStr q with
    | some out => Cell.str out
    | none => sentinel
  | Cell.bool b =>
    match fromtimestampStr (if b then 1 else 0) with
    | some out => Cell.str out
    | none => sentinel

/-- Does a string match the fixed pattern `YYYY-MM-DD HH:MM:SS`? -/
def matchesTimestampPattern (s : String) : Bool :=
  match s.data with
  | [a, b, c, d, e, f, g, h, i, j, k, l, m, n, o, p, q, r, u] =>
    a.isDigit && b.isDigit && c.isDigit && d.isDigit && (e == '-') &&
    f.isDigit && g.isDigit && (h == '-') && i.isDigit && j.isDigit &&
    (k == ' ') && l.isDigit && m.isDigit && (n == ':') && o.isDigit &&
    p.isDigit && (q == ':') && r.isDigit && u.isDigit
  | _ => false

/-! ### The normalization pipeline of `FlightScopeApp.fetchFlightData` -/

/-- The 17 schema column names assigned to the sliced frame. -/
def columns : List String :=
  ["ICAO24", "Callsign", "Origin", "TimePos",
   "LastContact", "Long", "Lat", "Alt",
   "OnGround", "Speed", "Heading", "VertRate",
   "Sensors", "GeoAlt", "Squawk", "SPI", "Source"]

/-- Length of the longest raw row: the column count of
`pd.DataFrame(data[\x27states\x27])`. -/
def maxRowLen (rows : List (List Cell)) : Nat :=
  rows.foldr (fun r acc => max r.length acc) 0

/-- Pad a row with `NaN` up to width `w`, as `pd.DataFrame` does for a
list-of-lists with uneven row lengths. -/
def padTo (w : Nat) (r : List Cell) : List Cell :=
  r ++ List.replicate (w - r.length) Cell.null

/-- One value under `.fillna(\x27No Data\x27)`. -/
def fillCell (c : Cell) : Cell :=
  match c with
  | Cell.null => sentinel
  | c => c

/-- One value under `pd.to_numeric(..., errors=\x27coerce\x27)`: numbers pass
through, booleans coerce to 0/1, numeric strings parse, everything else
becomes `NaN`. -/
def toNumericCell (c : Cell) : Cell :=
  match c with
  | Cell.num q => Cell.num q
  | Cell.bool b => Cell.num (if b then 1 else 0)
  | Cell.str s =>
    match parseNum s with
    | some q => Cell.num q
    | none => Cell.null
  | Cell.null => Cell.null

/-- Python truthiness of a cell value (note that a non-empty string such as
the sentinel is truthy; `NaN` is truthy too, `None` is not, but after
`fillna` no missing values remain so the `null` case is unreachable in the
pipeline). -/
def truthy (c : Cell) : Bool :=
  match c with
  | Cell.null => true
  | Cell.str s => s != ""
  | Cell.num q => q != 0
  | Cell.bool b => b

/-- The column-wise post-processing at column index `j`: the
`pd.to_numeric` + `formatTimestamp` pass on `TimePos` (3) and `LastContact`
(4), and the `\x27Yes\x27 if x else \x27No\x27` display mapping on `OnGround` (8). -/
def opAt (j : Nat) (c : Cell) : Cell :=
  if j = 3 ∨ j = 4 then formatTimestamp (toNumericCell c)
  else if j = 8 then Cell.str (if truthy c then "Yes" else "No")
  else c

/-- Apply `opAt` positionally along a row, starting at column index `j`. -/
def applyOps : Nat → List Cell → List Cell
  | _, [] => []
  | j, c :: cs => opAt j c :: applyOps (j + 1) cs

/-- The full normalization pipeline of `fetchFlightData` on the raw
`data[\x27states\x27]` rows: build the frame (padding ragged rows with `NaN`),
slice to the first 17 columns, assign the 17 column names (pandas raises
`ValueError: Length mismatch` when the sliced frame has fewer than 17
columns), fill missing values with the sentinel, then run the column
post-processing.  The pandas operations are column-wise but value-local, so
they are expressed row-wise here. -/
def normalizePayload (rows : List (List Cell)) : Except String (List (List Cell)) :=
  let w := maxRowLen rows
  if 17 ≤ w then
    Except.ok (rows.map (fun r => applyOps 0 (((padTo w r).take 17).map fillCell)))
  else
    Except.error "ValueError: Length mismatch"

/-- The normalized record obtained from one raw row (the row-wise view of
`normalizePayload`, valid whenever the payload reaches 17 columns). -/
def normRow (r : List Cell) : List Cell :=
  applyOps 0 ((padTo 17 (r.take 17)).map fillCell)

/-- The raw value feeding schema column `j` for row `r` after padding and
slicing: the source value when present, `null` when the row is too short. -/
def rawAt (r : List Cell) (j : Nat) : Cell :=
  ((padTo 17 (r.take 17)).get? j).getD Cell.null

/-! ### One refresh cycle of `FlightScopeApp.fetchFlightData` -/

/-- The normalized record set bound to the table view. -/
structure Snapshot where
  cols : List String
  rows : List (List Cell)
deriving DecidableEq, Repr

/-- Display form `str(...)` of a cell value, as used by `to_csv` and the
table model. -/
def cellStr (c : Cell) : String :=
  match c with
  | Cell.null => "nan"
  | Cell.str s => s
  | Cell.num q => toString q
  | Cell.bool b => if b then "True" else "False"

/-- The flat CSV artifact written by `flightDf.to_csv(\x27FlightScope.csv\x27,
index=False)`: the header row followed by one rendered row per aircraft. -/
def csvRender (cols : List String) (rows : List (List Cell)) : List (List String) :=
  cols :: rows.map (fun r => r.map cellStr)

/-- The `states` entry of the decoded JSON body: absent key, JSON `null`, or
a list of raw rows. -/
inductive StatesField where
  | absent : StatesField
  | nullStates : StatesField
  | states : List (List Cell) → StatesField
deriving DecidableEq, Repr

/-- Python truthiness of `\x27states\x27 in data and data[\x27states\x27]`. -/
def statesTruthy (b : StatesField) : Bool :=
  match b with
  | StatesField.states (_ :: _) => true
  | _ => false

/-- What `requests.get` produced: a transport-level exception, or an HTTP
response with a status code and decoded body. -/
inductive FetchResult where
  | transportError : FetchResult
  | response : Nat → StatesField → FetchResult
deriving DecidableEq, Repr

/-- The externally observable effects of one refresh cycle: the snapshot
bound to the table view (if any), the CSV content written (if any), and the
text assigned to the two status labels. -/
structure CycleEvents where
  modelBound : Option Snapshot
  csvWritten : Option (List (List String))
  countSet : String
  updateSet : String
deriving DecidableEq, Repr

/-- The `try:` block of `fetchFlightData`: the status-code test, the
`states` truthiness test, the normalization pipeline, the CSV write, the
model binding and the label updates.  A raised exception (transport failure
from `requests.get`, or `ValueError` from the column assignment) surfaces as
`Except.error`.  `now` is `datetime.now().strftime(\x27%H:%M:%S\x27)`. -/
def tryBody (res : FetchResult) (now : String) : Except String CycleEvents :=
  match res with
  | FetchResult.transportError => Except.error "requests ConnectionError"
  | FetchResult.response status body =>
    if status = 200 then
      match body with
      | StatesField.states (r :: rs) =>
        match normalizePayload (r :: rs) with
        | Except.ok ns =>
          Except.ok
            { modelBound := some ⟨columns, ns⟩
              csvWritten := some (csvRender columns ns)
              countSet := "Flights: " ++ toString ns.length
              updateSet := "Updated: " ++ now }
        | Except.error e => Except.error e
      | _ =>
        Except.ok
          { modelBound := none, csvWritten := none
            countSet := "Flights: 0", updateSet := "Updated: " ++ now }
    else
      Except.ok
        { modelBound := none, csvWritten := none
          countSet := "Flights: --", updateSet := "Update failed" }

/-- One full execution of `fetchFlightData`: the `try:` body under the
`except Exception:` handler, which degrades every raised exception to the
two error labels.  Total by construction, exactly because the handler
catches everything. -/
def runCycle (res : FetchResult) (now : String) : CycleEvents :=
  match tryBody res now with
  | Except.ok ev => ev
  | Except.error _ =>
    { modelBound := none, csvWritten := none
      countSet := "Error", updateSet := "Connection error" }

/-- The mutable application state touched by a refresh cycle. -/
structure AppState where
  countLabel : String
  updateLabel : String
  tableModel : Option Snapshot
  csvFile : Option (List (List String))
deriving DecidableEq, Repr

/-- Apply the effects of one cycle to the application state: labels are
always reassigned; the table model and the CSV file on disk change only
when the cycle bound/wrote them. -/
def applyCycle (ev : CycleEvents) (st : AppState) : AppState :=
  { countLabel := ev.countSet
    updateLabel := ev.updateSet
    tableModel :=
      match ev.modelBound with
      | some s => some s
      | none => st.tableModel
    csvFile :=
      match ev.csvWritten with
      | some f => some f
      | none => st.csvFile }

/-- The method `fetchFlightData` as a state transformer. -/
def fetchFlightData (res : FetchResult) (now : String) (st : AppState) : AppState :=
  applyCycle (runCycle res now) st

/-! ### The tabular presenter `FlightDataModel` -/

/-- Qt item-data roles used by the model. -/
inductive Role where
  | display : Role
  | textAlignment : Role
  | other : Role
deriving DecidableEq, Repr

/-- Qt header orientations. -/
inductive HeaderKind where
  | horizontal : HeaderKind
  | vertical : HeaderKind
deriving DecidableEq, Repr

/-- A value returned from a model accessor (Python returns a string, an
alignment flag, or `None`). -/
inductive DisplayValue where
  | text : String → DisplayValue
  | alignCenter : DisplayValue
deriving DecidableEq, Repr

/-- Model of `FlightDataModel.rowCount`: `self._data.shape[0]`. -/
def rowCount (m : Snapshot) : Nat := m.rows.length

/-- Model of `FlightDataModel.columnCount`: `self._data.shape[1]`. -/
def columnCount (m : Snapshot) : Nat := m.cols.length

/-- Validity `index.isValid()` of an index produced by the model. -/
def isValidIndex (m : Snapshot) (r c : Nat) : Bool :=
  decide (r < rowCount m) && decide (c < columnCount m)

/-- Model of `FlightDataModel.data`: `None` for an invalid index, the cell rendered
with `str(...)` for the display role, the center alignment flag for the
alignment role; an out-of-range `iloc` access would raise `IndexError`. -/
def dataAt (m : Snapshot) (r c : Nat) (role : Role) : Except String (Option DisplayValue) :=
  if isValidIndex m r c then
    match role with
    | Role.display =>
      match m.rows.get? r with
      | some row =>
        match row.get? c with
        | some cell => Except.ok (some (DisplayValue.text (cellStr cell)))
        | none => Except.error "IndexError"
      | none => Except.error "IndexError"
    | Role.textAlignment => Except.ok (some DisplayValue.alignCenter)
    | Role.other => Except.ok none
  else
    Except.ok none

/-- Model of `.replace(\x27_\x27, \x27 \x27)` for the single-character pattern used here. -/
def underscoresToSpaces (s : String) : String :=
  String.mk (s.data.map (fun c => if c = '_' then ' ' else c))

/-- Python `str.title()`: upper-case each alphabetic character that starts a
run of letters, lower-case the rest. -/
def titleCase (s : String) : String :=
  String.mk
    (s.data.foldl
      (fun (st : List Char × Bool) c =>
        if c.isAlpha then
          (st.1 ++ [if st.2 then c.toLower else c.toUpper], true)
        else (st.1 ++ [c], false))
      ([], false)).1

/-- The header display transform
`str(self._data.columns[section]).replace(\x27_\x27, \x27 \x27).title()`. -/
def headerDisplay (s : String) : String := titleCase (underscoresToSpaces s)

/-- Model of `FlightDataModel.headerData`: `None` for non-display roles, the
transformed column name horizontally (an out-of-range section would raise
`IndexError`), the 1-based row number vertically. -/
def headerData (m : Snapshot) (sec : Nat) (o : HeaderKind) (role : Role) :
    Except String (Option String) :=
  match role with
  | Role.display =>
    match o with
    | HeaderKind.horizontal =>
      match m.cols.get? sec with
      | some name => Except.ok (some (headerDisplay name))
      | none => Except.error "IndexError"
    | HeaderKind.vertical => Except.ok (some (natStr (sec + 1)))
  | _ => Except.ok none

/-- The empty snapshot: the 17 schema columns and no rows. -/
def emptySnapshot : Snapshot := ⟨columns, []⟩

/-- A demo raw state vector whose `TimePos` is a non-numeric string and whose
`Alt`, `OnGround`, `Sensors` and `GeoAlt` fields are missing (`null`). -/
def row17null8 : List Cell :=
  [Cell.str "abc123", Cell.str "UAL1", Cell.str "US", Cell.str "xx",
   Cell.num 1690000005, Cell.num 75, Cell.num 45, Cell.null,
   Cell.null, Cell.num 230, Cell.num 180, Cell.num 0,
   Cell.null, Cell.null, Cell.str "1200", Cell.bool false, Cell.num 0]

/-! ## Supporting lemmas: decimal rendering -/

theorem decDigits_lt10 (fuel n : Nat) (acc : List Char) (hf : 0 < fuel) (h : n < 10) :
    decDigits fuel n acc = Char.ofNat (48 + n) :: acc := by
  cases fuel with
  | zero => omega
  | succ m => simp [decDigits, h]

theorem decDigits_step (fuel n : Nat) (acc : List Char) (hf : 0 < fuel) (h : 10 ≤ n) :
    decDigits fuel n acc = decDigits (fuel - 1) (n / 10) (Char.ofNat (48 + n % 10) :: acc) := by
  cases fuel with
  | zero => omega
  | succ m =>
    have h2 : ¬ n < 10 := by omega
    simp [decDigits, h2]

theorem isDigit_ofNat_digit (d : Nat) (h : d < 10) : (Char.ofNat (48 + d)).isDigit = true := by
  interval_cases d <;> decide

theorem natStr_data1 (n : Nat) (h : n < 10) : (natStr n).data = [Char.ofNat (48 + n)] := by
  unfold natStr
  rw [decDigits_lt10 (n + 1) n [] (by omega) h]

theorem natStr_data2 (n : Nat) (h1 : 10 ≤ n) (h2 : n < 100) :
    (natStr n).data = [Char.ofNat (48 + n / 10), Char.ofNat (48 + n % 10)] := by
  unfold natStr
  rw [decDigits_step (n + 1) n [] (by omega) h1,
    decDigits_lt10 (n + 1 - 1) (n / 10) _ (by omega) (by omega)]

theorem natStr_data4 (n : Nat) (h1 : 1000 ≤ n) (h2 : n ≤ 9999) :
    (natStr n).data = [Char.ofNat (48 + n / 1000), Char.ofNat (48 + n / 100 % 10),
      Char.ofNat (48 + n / 10 % 10), Char.ofNat (48 + n % 10)] := by
  unfold natStr
  rw [decDigits_step (n + 1) n [] (by omega) (by omega)]
  rw [decDigits_step (n + 1 - 1) (n / 10) _ (by omega) (by omega)]
  rw [decDigits_step (n + 1 - 1 - 1) (n / 10 / 10) _ (by omega) (by omega)]
  rw [decDigits_lt10 (n + 1 - 1 - 1 - 1) (n / 10 / 10 / 10) _ (by omega) (by omega)]
  have e1 : n / 10 / 10 = n / 100 := by omega
  rw [e1]
  have e2 : n / 100 / 10 = n / 1000 := by omega
  rw [e2]

theorem pad2_data (n : Nat) (h : n < 100) :
    ∃ a b : Char, (pad2 n).data = [a, b] ∧ a.isDigit = true ∧ b.isDigit = true := by
  unfold pad2
  by_cases h10 : n < 10
  · refine ⟨'0', Char.ofNat (48 + n), ?_, by decide, isDigit_ofNat_digit n h10⟩
    simp [h10, String.data_append, natStr_data1 n h10]
  · refine ⟨Char.ofNat (48 + n / 10), Char.ofNat (48 + n % 10), ?_, ?_, ?_⟩
    · simp [h10, natStr_data2 n (by omega) h]
    · exact isDigit_ofNat_digit _ (by omega)
    · exact isDigit_ofNat_digit _ (by omega)

theorem natStr4_digits (n : Nat) (h1 : 1000 ≤ n) (h2 : n ≤ 9999) :
    ∃ a b c d : Char, (natStr n).data = [a, b, c, d] ∧ a.isDigit = true ∧ b.isDigit = true
      ∧ c.isDigit = true ∧ d.isDigit = true := by
  refine ⟨_, _, _, _, natStr_data4 n h1 h2, ?_, ?_, ?_, ?_⟩ <;>
    exact isDigit_ofNat_digit _ (by omega)

/-! ## Supporting lemmas: civil calendar bounds -/

theorem doyOf_le (doe : Nat) (h : doe ≤ 146096) : doyOf doe ≤ 365 := by
  have key : (doe - doe / 1460 + doe / 36524 - doe / 146096) / 36500 ≤ doe / 36524 := by
    omega
  have hb : (doe - doe / 1460 + doe / 36524 - doe / 146096) / 365 / 4
      = (doe - doe / 1460 + doe / 36524 - doe / 146096) / 1460 := by
    rw [Nat.div_div_eq_div_mul]
  have hc : (doe - doe / 1460 + doe / 36524 - doe / 146096) / 365 / 100
      = (doe - doe / 1460 + doe / 36524 - doe / 146096) / 36500 := by
    rw [Nat.div_div_eq_div_mul]
  unfold doyOf yoeOf
  omega

theorem mpOf_le (doe : Nat) (h : doe ≤ 146096) : mpOf doe ≤ 11 := by
  have := doyOf_le doe h
  unfold mpOf
  omega

theorem monthOf_bounds (doe : Nat) (h : doe ≤ 146096) : 1 ≤ monthOf doe ∧ monthOf doe ≤ 13 := by
  have := mpOf_le doe h
  unfold monthOf
  split <;> omega

theorem domOf_bounds (doe : Nat) (h : doe ≤ 146096) : 1 ≤ domOf doe ∧ domOf doe ≤ 32 := by
  have h1 := doyOf_le doe h
  unfold domOf mpOf
  omega

theorem epochParts_m_eq (n : Int) :
    (epochParts n).m = monthOf (((n - minEpoch).toNat / 86400 + 306) % 146097) := rfl

theorem epochParts_d_eq (n : Int) :
    (epochParts n).d = domOf (((n - minEpoch).toNat / 86400 + 306) % 146097) := rfl

theorem epochParts_m_lt (n : Int) : (epochParts n).m < 100 := by
  have h : ((n - minEpoch).toNat / 86400 + 306) % 146097 ≤ 146096 := by omega
  have h2 := (monthOf_bounds _ h).2
  rw [epochParts_m_eq]
  omega

theorem epochParts_d_lt (n : Int) : (epochParts n).d < 100 := by
  have h : ((n - minEpoch).toNat / 86400 + 306) % 146097 ≤ 146096 := by omega
  have h2 := (domOf_bounds _ h).2
  rw [epochParts_d_eq]
  omega

theorem epochParts_hh_lt (n : Int) : (epochParts n).hh < 100 := by
  have e : (epochParts n).hh = (n - minEpoch).toNat % 86400 / 3600 := rfl
  omega

theorem epochParts_mi_lt (n : Int) : (epochParts n).mi < 100 := by
  have e : (epochParts n).mi = (n - minEpoch).toNat % 86400 % 3600 / 60 := rfl
  omega

theorem epochParts_ss_lt (n : Int) : (epochParts n).ss < 100 := by
  have e : (epochParts n).ss = (n - minEpoch).toNat % 86400 % 60 := rfl
  omega

/-! ## Supporting lemmas: the formatted timestamp matches the pattern -/

theorem fmtString_matches (n : Int) (h3 : 1000 ≤ epochYear n) (h4 : epochYear n ≤ 9999) :
    matchesTimestampPattern (fmtString n) = true := by
  obtain ⟨a, b, c, d, hy, ha, hb, hc, hd⟩ := natStr4_digits (epochYear n) h3 h4
  obtain ⟨m1, m2, hm, hm1, hm2⟩ := pad2_data (epochParts n).m (epochParts_m_lt n)
  obtain ⟨d1, d2, hdd, hd1, hd2⟩ := pad2_data (epochParts n).d (epochParts_d_lt n)
  obtain ⟨h1, h2, hhh, hh1, hh2⟩ := pad2_data (epochParts n).hh (epochParts_hh_lt n)
  obtain ⟨i1, i2, hmi, hi1, hi2⟩ := pad2_data (epochParts n).mi (epochParts_mi_lt n)
  obtain ⟨s1, s2, hss, hs1, hs2⟩ := pad2_data (epochParts n).ss (epochParts_ss_lt n)
  have hy' : (natStr (epochParts n).y).data = [a, b, c, d] := hy
  have hdata : (fmtString n).data
      = [a, b, c, d, '-', m1, m2, '-', d1, d2, ' ', h1, h2, ':', i1, i2, ':', s1, s2] := by
    show (natStr (epochParts n).y ++ "-" ++ pad2 (epochParts n).m ++ "-"
        ++ pad2 (epochParts n).d ++ " " ++ pad2 (epochParts n).hh ++ ":"
        ++ pad2 (epochParts n).mi ++ ":" ++ pad2 (epochParts n).ss).data = _
    simp [String.data_append, hy', hm, hdd, hhh, hmi, hss]
  unfold matchesTimestampPattern
  rw [hdata]
  simp [ha, hb, hc, hd, hm1, hm2, hd1, hd2, hh1, hh2, hi1, hi2, hs1, hs2]

/-! ## Supporting lemmas: `formatTimestamp` case analysis -/

theorem formatTimestamp_isStr (c : Cell) : ∃ s, formatTimestamp c = Cell.str s := by
  unfold formatTimestamp sentinel
  cases c with
  | null => exact ⟨_, rfl⟩
  | str s =>
    by_cases h : s = "No Data"
    · exact ⟨"No Data", by simp [h]⟩
    · simp only [if_neg h]
      cases hp : parseNum s with
      | none => exact ⟨"No Data", rfl⟩
      | some q =>
        dsimp only
        cases hq : fromtimestampStr q with
        | none => exact ⟨"No Data", rfl⟩
        | some out => exact ⟨out, rfl⟩
  | num q =>
    dsimp only
    cases hq : fromtimestampStr q with
    | none => exact ⟨"No Data", rfl⟩
    | some out => exact ⟨out, rfl⟩
  | bool b =>
    dsimp only
    cases hq : fromtimestampStr (if b then 1 else 0) with
    | none => exact ⟨"No Data", rfl⟩
    | some out => exact ⟨out, rfl⟩

theorem formatTimestamp_num_inRange (n : Int) (q1 : minEpoch ≤ n) (q2 : n ≤ maxEpoch) :
    formatTimestamp (Cell.num n) = Cell.str (fmtString n) := by
  unfold formatTimestamp fromtimestampStr
  simp [q1, q2]

theorem formatTimestamp_num_outRange (n : Int) (h : n < minEpoch ∨ maxEpoch < n) :
    formatTimestamp (Cell.num n) = sentinel := by
  unfold formatTimestamp fromtimestampStr
  have h2 : ¬ (minEpoch ≤ n ∧ n ≤ maxEpoch) := by omega
  simp [h2]

theorem formatTimestamp_null_eq : formatTimestamp Cell.null = sentinel := rfl

theorem formatTimestamp_sentinel_eq : formatTimestamp sentinel = sentinel := by decide

theorem formatTimestamp_str_unparsed (s : String) (h : parseNum s = none) :
    formatTimestamp (Cell.str s) = sentinel := by
  unfold formatTimestamp
  by_cases hs : s = "No Data"
  · simp [hs]
  · simp [hs, h]

/-! ## Supporting lemmas: list plumbing for the pipeline -/

theorem applyOps_length (j : Nat) (l : List Cell) : (applyOps j l).length = l.length := by
  induction l generalizing j with
  | nil => rfl
  | cons c cs ih => simp [applyOps, ih]

theorem applyOps_get? (l : List Cell) (j i : Nat) :
    (applyOps j l).get? i = (l.get? i).map (fun c => opAt (j + i) c) := by
  induction l generalizing j i with
  | nil => simp [applyOps]
  | cons c cs ih =>
    cases i with
    | zero => simp [applyOps]
    | succ k =>
      have e : j + (k + 1) = (j + 1) + k := by omega
      simp only [applyOps, e]
      simpa using ih (j + 1) k

theorem get?_replicate_lt (a : Cell) (k i : Nat) (h : i < k) :
    (List.replicate k a).get? i = some a := by
  induction k generalizing i with
  | zero => omega
  | succ m ih =>
    cases i with
    | zero => rfl
    | succ t => exact ih t (by omega)

theorem padTo17_take_length (r : List Cell) : (padTo 17 (r.take 17)).length = 17 := by
  simp [padTo]

theorem normRow_length (r : List Cell) : (normRow r).length = 17 := by
  unfold normRow
  rw [applyOps_length, List.length_map, padTo17_take_length]

theorem rawAt_get? (r : List Cell) (j : Nat) (hj : j < 17) :
    (padTo 17 (r.take 17)).get? j = some (rawAt r j) := by
  unfold rawAt
  cases hg : (padTo 17 (r.take 17)).get? j with
  | some c => rfl
  | none =>
    exfalso
    have h2 := List.get?_eq_none.mp hg
    rw [padTo17_take_length] at h2
    omega

theorem rawAt_short (r : List Cell) (j : Nat) (hj : j < 17) (hr : r.length ≤ j) :
    rawAt r j = Cell.null := by
  unfold rawAt padTo
  have hlen : (r.take 17).length = r.length := by
    simp
    omega
  rw [List.get?_append_right (by omega)]
  rw [get?_replicate_lt _ _ _ (by simp; omega)]
  rfl

theorem normRow_get? (r : List Cell) (j : Nat) (hj : j < 17) :
    (normRow r).get? j = some (opAt j (fillCell (rawAt r j))) := by
  unfold normRow
  rw [applyOps_get?, List.get?_map, rawAt_get? r j hj]
  simp

theorem maxRowLen_ge (rows : List (List Cell)) (r : List Cell) (h : r ∈ rows) :
    r.length ≤ maxRowLen rows := by
  induction rows with
  | nil => cases h
  | cons x xs ih =>
    have e : maxRowLen (x :: xs) = max x.length (maxRowLen xs) := rfl
    rcases List.mem_cons.mp h with h1 | h2
    · rw [h1, e]
      exact Nat.le_max_left _ _
    · rw [e]
      exact Nat.le_trans (ih h2) (Nat.le_max_right _ _)

theorem padTo_get? (w : Nat) (r : List Cell) (n : Nat) :
    (padTo w r).get? n =
      if n < r.length then r.get? n
      else if n < max r.length w then some Cell.null else none := by
  unfold padTo
  by_cases h1 : n < r.length
  · rw [List.get?_append h1]
    simp [h1]
  · rw [List.get?_append_right (by omega)]
    by_cases h2 : n < max r.length w
    · rw [get?_replicate_lt _ _ _ (by omega)]
      simp [h1, h2]
    · rw [List.get?_eq_none.mpr (by simp; omega)]
      simp [h1, h2]

theorem padTo_take_17 (w : Nat) (r : List Cell) (hw : 17 ≤ w) :
    (padTo w r).take 17 = padTo 17 (r.take 17) := by
  apply List.ext_get?_iff.mpr
  intro n
  have hlen : (r.take 17).length = min 17 r.length := List.length_take 17 r
  by_cases hn : n < 17
  · rw [List.get?_take hn, padTo_get?, padTo_get?]
    by_cases h1 : n < r.length
    · have c1 : n < (r.take 17).length := by omega
      rw [if_pos h1, if_pos c1, List.get?_take hn]
    · have c1 : ¬ n < (r.take 17).length := by omega
      have c2 : n < max r.length w := by omega
      have c3 : n < max (r.take 17).length 17 := by omega
      rw [if_neg h1, if_neg c1, if_pos c2, if_pos c3]
  · have h1 : ((padTo w r).take 17).get? n = none := by
      apply List.get?_eq_none.mpr
      simp
      omega
    have h2 : (padTo 17 (r.take 17)).get? n = none := by
      apply List.get?_eq_none.mpr
      rw [padTo17_take_length]
      omega
    rw [h1, h2]

theorem normalizePayload_ok (rows : List (List Cell)) (h : 17 ≤ maxRowLen rows) :
    normalizePayload rows = Except.ok (rows.map normRow) := by
  unfold normalizePayload
  simp only [h, if_true]
  congr 1
  apply List.map_congr_left
  intro r _
  unfold normRow
  rw [padTo_take_17 (maxRowLen rows) r h]

theorem normalizePayload_short (rows : List (List Cell)) (h : maxRowLen rows < 17) :
    normalizePayload rows = Except.error "ValueError: Length mismatch" := by
  unfold normalizePayload
  simp only [Nat.not_le.mpr h, if_false]

theorem fillCell_ne_null (c : Cell) : fillCell c ≠ Cell.null := by
  cases c <;> simp [fillCell, sentinel]

theorem opAt_ne_null (j : Nat) (c : Cell) (h : c ≠ Cell.null) : opAt j c ≠ Cell.null := by
  unfold opAt
  by_cases h34 : j = 3 ∨ j = 4
  · simp only [h34, if_true]
    obtain ⟨s, hs⟩ := formatTimestamp_isStr (toNumericCell c)
    simp [hs]
  · by_cases h8 : j = 8
    · simp [h34, h8]
    · simp [h34, h8, h]

theorem applyOps_ne_null (l : List Cell) (j : Nat) (hl : ∀ x ∈ l, x ≠ Cell.null) :
    ∀ c ∈ applyOps j l, c ≠ Cell.null := by
  induction l generalizing j with
  | nil => intro c hc; cases hc
  | cons x xs ih =>
    intro c hc
    rcases List.mem_cons.mp hc with h1 | h2
    · rw [h1]
      exact opAt_ne_null j x (hl x (List.mem_cons_self x xs))
    · exact ih (j + 1) (fun y hy => hl y (List.mem_cons_of_mem x hy)) c h2

theorem normRow_ne_null (r : List Cell) : ∀ c ∈ normRow r, c ≠ Cell.null := by
  unfold normRow
  apply applyOps_ne_null
  intro x hx
  obtain ⟨y, _, hy⟩ := List.mem_map.mp hx
  rw [← hy]
  exact fillCell_ne_null y

theorem opAt_sentinel_3 : opAt 3 sentinel = sentinel := by decide

theorem opAt_sentinel_4 : opAt 4 sentinel = sentinel := by decide

theorem opAt_sentinel_8 : opAt 8 sentinel = Cell.str "Yes" := by decide

theorem opAt_sentinel_other (j : Nat) (h3 : j ≠ 3) (h4 : j ≠ 4) (h8 : j ≠ 8) :
    opAt j sentinel = sentinel := by
  unfold opAt
  simp [h3, h4, h8]

/-! ## Supporting lemmas: refresh-cycle branches -/

theorem runCycle_non200 (status : Nat) (body : StatesField) (now : String) (h : status ≠ 200) :
    runCycle (FetchResult.response status body) now
      = { modelBound := none, csvWritten := none,
          countSet := "Flights: --", updateSet := "Update failed" } := by
  unfold runCycle tryBody
  simp [h]

theorem runCycle_transport (now : String) :
    runCycle FetchResult.transportError now
      = { modelBound := none, csvWritten := none,
          countSet := "Error", updateSet := "Connection error" } := rfl

theorem runCycle_catch (res : FetchResult) (now : String) (e : String)
    (h : tryBody res now = Except.error e) :
    runCycle res now
      = { modelBound := none, csvWritten := none,
          countSet := "Error", updateSet := "Connection error" } := by
  unfold runCycle
  rw [h]

theorem runCycle_emptyStates (body : StatesField) (now : String)
    (h : statesTruthy body = false) :
    runCycle (FetchResult.response 200 body) now
      = { modelBound := none, csvWritten := none,
          countSet := "Flights: 0", updateSet := "Updated: " ++ now } := by
  unfold runCycle tryBody
  cases body with
  | absent => simp
  | nullStates => simp
  | states rows =>
    cases rows with
    | nil => simp
    | cons r rs => simp [statesTruthy] at h

theorem runCycle_data (rows ns : List (List Cell)) (now : String)
    (hne : rows ≠ []) (hok : normalizePayload rows = Except.ok ns) :
    runCycle (FetchResult.response 200 (StatesField.states rows)) now
      = { modelBound := some ⟨columns, ns⟩,
          csvWritten := some (csvRender columns ns),
          countSet := "Flights: " ++ toString ns.length,
          updateSet := "Updated: " ++ now } := by
  unfold runCycle tryBody
  cases rows with
  | nil => exact absurd rfl hne
  | cons r rs => simp [hok]

theorem runCycle_normError (rows : List (List Cell)) (now : String) (e : String)
    (hne : rows ≠ []) (herr : normalizePayload rows = Except.error e) :
    runCycle (FetchResult.response 200 (StatesField.states rows)) now
      = { modelBound := none, csvWritten := none,
          countSet := "Error", updateSet := "Connection error" } := by
  unfold runCycle tryBody
  cases rows with
  | nil => exact absurd rfl hne
  | cons r rs => simp [herr]

/-! ## Claim theorems -/

/-- C4: for every execution of the refresh cycle, a non-200 HTTP status or a
transport-level failure is caught inside the cycle and results only in a
status-label change ("Flights: --"/"Update failed" for a non-200 response,
"Error"/"Connection error" for a transport failure); moreover every raised
exception inside the cycle is caught by the handler, so the cycle never
terminates with an unhandled exception. -/
theorem errorCyclesLabelOnly (status : Nat) (body : StatesField) (now : String)
    (h : status ≠ 200) :
    runCycle (FetchResult.response status body) now
      = { modelBound := none, csvWritten := none,
          countSet := "Flights: --", updateSet := "Update failed" }
    ∧ runCycle FetchResult.transportError now
      = { modelBound := none, csvWritten := none,
          countSet := "Error", updateSet := "Connection error" }
    ∧ (∀ (res : FetchResult) (e : String), tryBody res now = Except.error e →
        runCycle res now
          = { modelBound := none, csvWritten := none,
              countSet := "Error", updateSet := "Connection error" }) := by
  exact ⟨runCycle_non200 status body now h, runCycle_transport now,
    fun res e he => runCycle_catch res now e he⟩

/-- C4 witness at a 404 response, a transport failure, and the transport
exception surfacing from the `try:` body. -/
theorem errorCyclesLabelOnly_witness :
    runCycle (FetchResult.response 404 StatesField.nullStates) "12:00:00"
      = { modelBound := none, csvWritten := none,
          countSet := "Flights: --", updateSet := "Update failed" }
    ∧ runCycle FetchResult.transportError "12:00:00"
      = { modelBound := none, csvWritten := none,
          countSet := "Error", updateSet := "Connection error" }
    ∧ runCycle FetchResult.transportError "12:00:00"
      = { modelBound := none, csvWritten := none,
          countSet := "Error", updateSet := "Connection error" } := by
  have h := errorCyclesLabelOnly 404 StatesField.nullStates "12:00:00" (by decide)
  exact ⟨h.1, h.2.1, h.2.2 FetchResult.transportError "requests ConnectionError" rfl⟩

/-- C5 counterexample: after a 200 response whose body is `{"states": null}`,
no snapshot of 0 records is produced or bound: the table model still holds the
previous one-record snapshot while the count label reads "Flights: 0". -/
theorem nullStatesKeepsOldModel :
    (fetchFlightData (FetchResult.response 200 StatesField.nullStates) "12:00:00"
        ⟨"Flights: 1", "Updated: 11:59:00", some ⟨columns, [[Cell.str "x"]]⟩,
          some [["h"]]⟩).tableModel
      = some ⟨columns, [[Cell.str "x"]]⟩
    ∧ (fetchFlightData (FetchResult.response 200 StatesField.nullStates) "12:00:00"
        ⟨"Flights: 1", "Updated: 11:59:00", some ⟨columns, [[Cell.str "x"]]⟩,
          some [["h"]]⟩).countLabel
      = "Flights: 0" := ⟨rfl, rfl⟩

/-- C5 (amended): for every 200 response whose `states` entry is absent,
null or an empty list, the refresh cycle does not raise, sets the count label
to "Flights: 0" and updates the last-updated label; however no empty snapshot
is constructed or bound — the table model and the CSV file are left
unchanged. -/
theorem emptyStatesCycle (body : StatesField) (now : String) (st : AppState)
    (h : statesTruthy body = false) :
    runCycle (FetchResult.response 200 body) now
      = { modelBound := none, csvWritten := none,
          countSet := "Flights: 0", updateSet := "Updated: " ++ now }
    ∧ (fetchFlightData (FetchResult.response 200 body) now st).tableModel = st.tableModel
    ∧ (fetchFlightData (FetchResult.response 200 body) now st).csvFile = st.csvFile
    ∧ (fetchFlightData (FetchResult.response 200 body) now st).countLabel = "Flights: 0"
    ∧ (fetchFlightData (FetchResult.response 200 body) now st).updateLabel
        = "Updated: " ++ now := by
  have hrun := runCycle_emptyStates body now h
  refine ⟨hrun, ?_, ?_, ?_, ?_⟩ <;>
    · unfold fetchFlightData applyCycle
      rw [hrun]

/-- C5 witness at the `{"states": null}` body and a concrete previous state. -/
theorem emptyStatesCycle_witness :
    runCycle (FetchResult.response 200 StatesField.nullStates) "12:00:00"
      = { modelBound := none, csvWritten := none,
          countSet := "Flights: 0", updateSet := "Updated: 12:00:00" }
    ∧ (fetchFlightData (FetchResult.response 200 StatesField.nullStates) "12:00:00"
        ⟨"a", "b", none, none⟩).tableModel = none
    ∧ (fetchFlightData (FetchResult.response 200 StatesField.nullStates) "12:00:00"
        ⟨"a", "b", none, none⟩).countLabel = "Flights: 0" := by
  have h := emptyStatesCycle StatesField.nullStates "12:00:00" ⟨"a", "b", none, none⟩ (by decide)
  exact ⟨h.1, h.2.1, h.2.2.2.1⟩

/-- C6: for every refresh cycle whose response has a non-200 status (such as
404), the update label is set to "Update failed" and the CSV file is not
written or overwritten: the on-disk artifact from the previous cycle is left
unchanged. -/
theorem failedCycleKeepsCsv (status : Nat) (body : StatesField) (now : String)
    (st : AppState) (h : status ≠ 200) :
    (fetchFlightData (FetchResult.response status body) now st).updateLabel
      = "Update failed"
    ∧ (fetchFlightData (FetchResult.response status body) now st).csvFile = st.csvFile := by
  have hrun := runCycle_non200 status body now h
  constructor <;>
    · unfold fetchFlightData applyCycle
      rw [hrun]

/-- C6 witness at a 404 response over a concrete previous CSV artifact. -/
theorem failedCycleKeepsCsv_witness :
    (fetchFlightData (FetchResult.response 404 StatesField.nullStates) "12:00:00"
        ⟨"Flights: 3", "Updated: 11:59:00", none, some [["old"]]⟩).updateLabel
      = "Update failed"
    ∧ (fetchFlightData (FetchResult.response 404 StatesField.nullStates) "12:00:00"
        ⟨"Flights: 3", "Updated: 11:59:00", none, some [["old"]]⟩).csvFile
      = some [["old"]] := by
  have h := failedCycleKeepsCsv 404 StatesField.nullStates "12:00:00"
    ⟨"Flights: 3", "Updated: 11:59:00", none, some [["old"]]⟩ (by decide)
  exact ⟨h.1, h.2⟩

/-- C8: normalization is deterministic at the payload level: two refresh
cycles run on the same fetched payload — at different wall-clock times and
from different application states — bind identical snapshots, write identical
CSV content and report identical counts. -/
theorem snapshotDependsOnlyOnPayload (res : FetchResult) (now1 now2 : String) :
    (runCycle res now1).modelBound = (runCycle res now2).modelBound
    ∧ (runCycle res now1).csvWritten = (runCycle res now2).csvWritten
    ∧ (runCycle res now1).countSet = (runCycle res now2).countSet := by
  cases res with
  | transportError => exact ⟨rfl, rfl, rfl⟩
  | response status body =>
    by_cases h : status = 200
    · subst h
      cases body with
      | absent => exact ⟨rfl, rfl, rfl⟩
      | nullStates => exact ⟨rfl, rfl, rfl⟩
      | states rows =>
        cases rows with
        | nil => exact ⟨rfl, rfl, rfl⟩
        | cons r rs =>
          cases hn : normalizePayload (r :: rs) with
          | ok ns =>
            rw [runCycle_data (r :: rs) ns now1 (by simp) hn,
              runCycle_data (r :: rs) ns now2 (by simp) hn]
            exact ⟨rfl, rfl, rfl⟩
          | error e =>
            rw [runCycle_normError (r :: rs) now1 e (by simp) hn,
              runCycle_normError (r :: rs) now2 e (by simp) hn]
            exact ⟨rfl, rfl, rfl⟩
    · rw [runCycle_non200 status body now1 h, runCycle_non200 status body now2 h]
      exact ⟨rfl, rfl, rfl⟩

/-- C9: on the empty snapshot (17 schema columns, no rows) the tabular
presenter reports zero rows and 17 columns, the cell accessor returns `None`
for every index and role without raising, and the header accessor returns a
value without raising for every in-range section, both orientations and every
role. -/
theorem emptySnapshotSafe :
    rowCount emptySnapshot = 0
    ∧ columnCount emptySnapshot = 17
    ∧ (∀ (r c : Nat) (role : Role), dataAt emptySnapshot r c role = Except.ok none)
    ∧ (∀ (sec : Nat) (o : HeaderKind) (role : Role), sec < 17 →
        ∃ v, headerData emptySnapshot sec o role = Except.ok v) := by
  refine ⟨rfl, rfl, ?_, ?_⟩
  · intro r c role
    unfold dataAt isValidIndex rowCount emptySnapshot
    simp
  · intro sec o role hsec
    cases role with
    | display =>
      cases o with
      | horizontal =>
        cases hg : emptySnapshot.cols.get? sec with
        | none =>
          exfalso
          have h1 := List.get?_eq_none.mp hg
          have h2 : emptySnapshot.cols.length = 17 := rfl
          omega
        | some name =>
          refine ⟨some (headerDisplay name), ?_⟩
          unfold headerData
          rw [hg]
      | vertical => exact ⟨some (natStr (sec + 1)), rfl⟩
    | textAlignment => exact ⟨none, rfl⟩
    | other => exact ⟨none, rfl⟩

/-- C9 witness: concrete accessor calls on the empty snapshot. -/
theorem emptySnapshotSafe_witness :
    rowCount emptySnapshot = 0
    ∧ columnCount emptySnapshot = 17
    ∧ dataAt emptySnapshot 0 0 Role.display = Except.ok none
    ∧ (∃ v, headerData emptySnapshot 3 HeaderKind.horizontal Role.display = Except.ok v) := by
  have h := emptySnapshotSafe
  exact ⟨h.1, h.2.1, h.2.2.1 0 0 Role.display,
    h.2.2.2 3 HeaderKind.horizontal Role.display (by decide)⟩

/-- C10: a refresh cycle that fails — non-200 status or transport exception —
leaves the table model and the CSV file exactly as they were and modifies
only the two status labels. -/
theorem failedCycleFrame (status : Nat) (body : StatesField) (now : String)
    (st : AppState) (h : status ≠ 200) :
    fetchFlightData (FetchResult.response status body) now st
      = { st with countLabel := "Flights: --", updateLabel := "Update failed" }
    ∧ fetchFlightData FetchResult.transportError now st
      = { st with countLabel := "Error", updateLabel := "Connection error" } := by
  constructor
  · unfold fetchFlightData applyCycle
    rw [runCycle_non200 status body now h]
  · unfold fetchFlightData applyCycle
    rw [runCycle_transport now]

/-- C10 witness at a 404 response and a transport failure over a concrete
bound model and CSV artifact. -/
theorem failedCycleFrame_witness :
    fetchFlightData (FetchResult.response 404 StatesField.absent) "12:00:00"
        ⟨"Flights: 1", "Updated: 11:59:00", some ⟨columns, [[Cell.num 3]]⟩, some [["old"]]⟩
      = ⟨"Flights: --", "Update failed", some ⟨columns, [[Cell.num 3]]⟩, some [["old"]]⟩
    ∧ fetchFlightData FetchResult.transportError "12:00:00"
        ⟨"Flights: 1", "Updated: 11:59:00", some ⟨columns, [[Cell.num 3]]⟩, some [["old"]]⟩
      = ⟨"Error", "Connection error", some ⟨columns, [[Cell.num 3]]⟩, some [["old"]]⟩ := by
  have h := failedCycleFrame 404 StatesField.absent "12:00:00"
    ⟨"Flights: 1", "Updated: 11:59:00", some ⟨columns, [[Cell.num 3]]⟩, some [["old"]]⟩
    (by decide)
  exact ⟨h.1, h.2⟩

/-- C1 counterexample: a payload whose only row has fewer than 17 fields
builds a frame with fewer than 17 columns, so the 17-name column assignment
raises `ValueError` inside the cycle — normalization crashes on this short
row instead of sentinel-filling it, and the handler reports the error
labels. -/
theorem shortPayloadLengthMismatch :
    normalizePayload [[Cell.str "a"]] = Except.error "ValueError: Length mismatch"
    ∧ runCycle (FetchResult.response 200 (StatesField.states [[Cell.str "a"]])) "12:00:00"
      = { modelBound := none, csvWritten := none,
          countSet := "Error", updateSet := "Connection error" } := ⟨rfl, rfl⟩

/-- C1 (amended): provided some row of the payload reaches 17 fields (so the
frame has at least 17 columns), normalization does not crash, and every row
with fewer than 17 fields yields a record of exactly 17 fields whose missing
trailing fields are the sentinel — except position 8 (`on_ground`), where a
missing trailing field becomes the display value "Yes"; when every row is
shorter than 17 fields, normalization instead raises a length-mismatch
`ValueError`. -/
theorem normalizeShortRow (rows : List (List Cell)) (r : List Cell)
    (hw : 17 ≤ maxRowLen rows) (hr : r ∈ rows) (hlen : r.length < 17) :
    normalizePayload rows = Except.ok (rows.map normRow)
    ∧ normRow r ∈ rows.map normRow
    ∧ (normRow r).length = 17
    ∧ (∀ j : Nat, r.length ≤ j → j < 17 → j ≠ 8 → (normRow r).get? j = some sentinel)
    ∧ (r.length ≤ 8 → (normRow r).get? 8 = some (Cell.str "Yes")) := by
  refine ⟨normalizePayload_ok rows hw, List.mem_map_of_mem _ hr, normRow_length r, ?_, ?_⟩
  · intro j hj1 hj2 hj8
    rw [normRow_get? r j hj2, rawAt_short r j hj2 hj1]
    have hfill : fillCell Cell.null = sentinel := rfl
    rw [hfill]
    by_cases h3 : j = 3
    · rw [h3, opAt_sentinel_3]
    · by_cases h4 : j = 4
      · rw [h4, opAt_sentinel_4]
      · rw [opAt_sentinel_other j h3 h4 hj8]
  · intro h8
    rw [normRow_get? r 8 (by omega), rawAt_short r 8 (by omega) h8]
    rfl

/-- C1 witness: a two-field row alongside a full 17-field row. -/
theorem normalizeShortRow_witness :
    normalizePayload [row17null8, [Cell.str "xy"]]
      = Except.ok ([row17null8, [Cell.str "xy"]].map normRow)
    ∧ normRow [Cell.str "xy"] ∈ [row17null8, [Cell.str "xy"]].map normRow
    ∧ (normRow [Cell.str "xy"]).length = 17
    ∧ (normRow [Cell.str "xy"]).get? 9 = some sentinel
    ∧ (normRow [Cell.str "xy"]).get? 8 = some (Cell.str "Yes") := by
  have h := normalizeShortRow [row17null8, [Cell.str "xy"]] [Cell.str "xy"]
    (by decide) (by decide) (by decide)
  exact ⟨h.1, h.2.1, h.2.2.1, h.2.2.2.1 9 (by decide) (by decide) (by decide),
    h.2.2.2.2 (by decide)⟩

/-- C2 counterexample: the numeric epoch 10^12 lies outside the range
`datetime.fromtimestamp` accepts, so the formatter returns the sentinel for
this numeric input rather than a string matching `YYYY-MM-DD HH:MM:SS`. -/
theorem formatTimestampHugeEpoch :
    formatTimestamp (Cell.num 1000000000000) = Cell.str "No Data"
    ∧ matchesTimestampPattern "No Data" = false := ⟨rfl, rfl⟩

/-- C2 (amended): the formatter always returns a plain value and never
propagates a failure; missing values, the sentinel and non-numeric strings
return the sentinel unchanged; numeric epochs outside the `datetime` range
degrade to the sentinel; and every numeric epoch inside the range whose
calendar year has four digits formats to a string matching
`YYYY-MM-DD HH:MM:SS`. -/
theorem formatTimestampSpec :
    (∀ c : Cell, ∃ out, formatTimestamp c = Cell.str out)
    ∧ formatTimestamp Cell.null = sentinel
    ∧ formatTimestamp sentinel = sentinel
    ∧ (∀ s : String, parseNum s = none → formatTimestamp (Cell.str s) = sentinel)
    ∧ (∀ n : Int, (n < minEpoch ∨ maxEpoch < n) → formatTimestamp (Cell.num n) = sentinel)
    ∧ (∀ n : Int, minEpoch ≤ n → n ≤ maxEpoch → 1000 ≤ epochYear n → epochYear n ≤ 9999 →
        formatTimestamp (Cell.num n) = Cell.str (fmtString n)
        ∧ matchesTimestampPattern (fmtString n) = true) := by
  refine ⟨formatTimestamp_isStr, formatTimestamp_null_eq, formatTimestamp_sentinel_eq,
    formatTimestamp_str_unparsed, formatTimestamp_num_outRange, ?_⟩
  intro n q1 q2 h3 h4
  exact ⟨formatTimestamp_num_inRange n q1 q2, fmtString_matches n h3 h4⟩

/-- C2 witness: concrete formatter evaluations for each input class. -/
theorem formatTimestampSpec_witness :
    (∃ out, formatTimestamp (Cell.num 0) = Cell.str out)
    ∧ formatTimestamp Cell.null = sentinel
    ∧ formatTimestamp sentinel = sentinel
    ∧ formatTimestamp (Cell.str "abc") = sentinel
    ∧ formatTimestamp (Cell.num 1000000000000) = sentinel
    ∧ formatTimestamp (Cell.num 1690000000) = Cell.str (fmtString 1690000000)
    ∧ matchesTimestampPattern (fmtString 1690000000) = true := by
  have h := formatTimestampSpec
  have h6 := h.2.2.2.2.2 1690000000 (by decide) (by decide) (by decide) (by decide)
  exact ⟨h.1 (Cell.num 0), h.2.1, h.2.2.1, h.2.2.2.1 "abc" (by decide),
    h.2.2.2.2.1 1000000000000 (by decide), h6.1, h6.2⟩

/-- C3 counterexample: a full raw row whose `on_ground` field is missing
normalizes that field to the display value "Yes", not to the sentinel: the
sentinel string filled in by `fillna` is truthy, so the
`\x27Yes\x27 if x else \x27No\x27` mapping reports "Yes". -/
theorem onGroundMissingShowsYes :
    normalizePayload [row17null8] = Except.ok [normRow row17null8]
    ∧ (normRow row17null8).get? 8 = some (Cell.str "Yes")
    ∧ Cell.str "Yes" ≠ sentinel := ⟨rfl, rfl, by decide⟩

/-- C3 (amended): every normalized record has exactly 17 fields, none null or
absent; every missing source value surfaces as the sentinel except
`on_ground`, where a missing value surfaces as "Yes"; and a timestamp field
whose source value does not coerce to a number surfaces as the sentinel. -/
theorem normalizedRecordInvariant (rows : List (List Cell)) (r : List Cell)
    (hw : 17 ≤ maxRowLen rows) (hr : r ∈ rows) :
    normalizePayload rows = Except.ok (rows.map normRow)
    ∧ normRow r ∈ rows.map normRow
    ∧ (normRow r).length = 17
    ∧ (∀ c ∈ normRow r, c ≠ Cell.null)
    ∧ (∀ j : Nat, j < 17 → j ≠ 8 → rawAt r j = Cell.null →
        (normRow r).get? j = some sentinel)
    ∧ (rawAt r 8 = Cell.null → (normRow r).get? 8 = some (Cell.str "Yes"))
    ∧ (∀ j : Nat, j = 3 ∨ j = 4 → toNumericCell (fillCell (rawAt r j)) = Cell.null →
        (normRow r).get? j = some sentinel) := by
  refine ⟨normalizePayload_ok rows hw, List.mem_map_of_mem _ hr, normRow_length r,
    normRow_ne_null r, ?_, ?_, ?_⟩
  · intro j hj hj8 hnull
    rw [normRow_get? r j hj, hnull]
    have hfill : fillCell Cell.null = sentinel := rfl
    rw [hfill]
    by_cases h3 : j = 3
    · rw [h3, opAt_sentinel_3]
    · by_cases h4 : j = 4
      · rw [h4, opAt_sentinel_4]
      · rw [opAt_sentinel_other j h3 h4 hj8]
  · intro hnull
    rw [normRow_get? r 8 (by omega), hnull]
    rfl
  · intro j hj34 hcoerce
    have hj : j < 17 := by omega
    rw [normRow_get? r j hj]
    unfold opAt
    rw [if_pos hj34, hcoerce, formatTimestamp_null_eq]

/-- C3 witness: the demo row with a missing altitude, a missing `on_ground`
and a non-numeric `time_position`. -/
theorem normalizedRecordInvariant_witness :
    normalizePayload [row17null8] = Except.ok ([row17null8].map normRow)
    ∧ normRow row17null8 ∈ [row17null8].map normRow
    ∧ (normRow row17null8).length = 17
    ∧ Cell.str "Yes" ≠ Cell.null
    ∧ (normRow row17null8).get? 7 = some sentinel
    ∧ (normRow row17null8).get? 8 = some (Cell.str "Yes")
    ∧ (normRow row17null8).get? 3 = some sentinel := by
  have h := normalizedRecordInvariant [row17null8] row17null8 (by decide) (by decide)
  exact ⟨h.1, h.2.1, h.2.2.1,
    h.2.2.2.1 (Cell.str "Yes") (by decide),
    h.2.2.2.2.1 7 (by decide) (by decide) (by decide),
    h.2.2.2.2.2.1 (by decide),
    h.2.2.2.2.2.2 3 (by decide) (by decide)⟩

/-- C7 counterexample: a refresh cycle that succeeds with an empty `states`
result updates the last-updated label yet writes no CSV snapshot, so the
artifact from the previous cycle survives this successful refresh
unchanged. -/
theorem noCsvOnEmptyStates :
    (runCycle (FetchResult.response 200 StatesField.nullStates) "12:00:00").updateSet
      = "Updated: 12:00:00"
    ∧ (runCycle (FetchResult.response 200 StatesField.nullStates) "12:00:00").csvWritten
      = none
    ∧ (fetchFlightData (FetchResult.response 200 StatesField.nullStates) "12:00:00"
        ⟨"a", "b", none, some [["old"]]⟩).csvFile = some [["old"]] := ⟨rfl, rfl, rfl⟩

/-- C7 (amended): on every refresh cycle with a 200 response, a nonempty
`states` list and a successfully normalized payload, the CSV file is replaced
outright — its new content is a function of the payload alone, with the 17
schema columns as the header row, one rendered row per aircraft, and every
missing source value rendered as the sentinel string except `on_ground`,
which renders as "Yes". -/
theorem csvWriteOnDataCycle (rows : List (List Cell)) (now : String) (st : AppState)
    (hne : rows ≠ []) (hw : 17 ≤ maxRowLen rows) :
    (fetchFlightData (FetchResult.response 200 (StatesField.states rows)) now st).csvFile
      = some (csvRender columns (rows.map normRow))
    ∧ (csvRender columns (rows.map normRow)).head? = some columns
    ∧ (csvRender columns (rows.map normRow)).length = rows.length + 1
    ∧ (∀ r ∈ rows, ∀ j : Nat, j < 17 → j ≠ 8 → rawAt r j = Cell.null →
        ((normRow r).map cellStr).get? j = some "No Data")
    ∧ (∀ r ∈ rows, rawAt r 8 = Cell.null →
        ((normRow r).map cellStr).get? 8 = some "Yes") := by
  have hok := normalizePayload_ok rows hw
  have hrun := runCycle_data rows (rows.map normRow) now hne hok
  refine ⟨?_, rfl, by simp [csvRender], ?_, ?_⟩
  · unfold fetchFlightData applyCycle
    rw [hrun]
  · intro r hrm j hj hj8 hnull
    rw [List.get?_map, normRow_get? r j hj, hnull]
    have hfill : fillCell Cell.null = sentinel := rfl
    rw [hfill]
    by_cases h3 : j = 3
    · rw [h3, opAt_sentinel_3]
      rfl
    · by_cases h4 : j = 4
      · rw [h4, opAt_sentinel_4]
        rfl
      · rw [opAt_sentinel_other j h3 h4 hj8]
        rfl
  · intro r hrm hnull
    rw [List.get?_map, normRow_get? r 8 (by omega), hnull]
    rfl

/-- C7 witness: a one-aircraft payload written over a previous artifact. -/
theorem csvWriteOnDataCycle_witness :
    (fetchFlightData (FetchResult.response 200 (StatesField.states [row17null8]))
        "12:00:00" ⟨"a", "b", none, some [["old"]]⟩).csvFile
      = some (csvRender columns ([row17null8].map normRow))
    ∧ (csvRender columns ([row17null8].map normRow)).head? = some columns
    ∧ (csvRender columns ([row17null8].map normRow)).length = 2
    ∧ ((normRow row17null8).map cellStr).get? 7 = some "No Data"
    ∧ ((normRow row17null8).map cellStr).get? 8 = some "Yes" := by
  have h := csvWriteOnDataCycle [row17null8] "12:00:00" ⟨"a", "b", none, some [["old"]]⟩
    (by decide) (by decide)
  exact ⟨h.1, h.2.1, h.2.2.1,
    h.2.2.2.1 row17null8 (by decide) 7 (by decide) (by decide) (by decide),
    h.2.2.2.2 row17null8 (by decide) (by decide)⟩
